import Mathlib

/-!
Verification development for the consul-k8s connect-inject mutating-admission
pipeline: namespace resolution (consulNamespace), namespace reconciliation
(checkAndCreateNamespace), patch construction (Build) and the Handler
orchestration (Mutate). The enterprise test file
src/connect-inject/handler_ent_test.go exercises these components; the
component implementations themselves are modelled here from the design
document, with field and function names taken from the test file.
-/

/-- A container of a Pod spec; only the name is relevant to the patch shape. -/
structure Container where
  name : String
deriving DecidableEq, Repr

/-- A volume of a Pod spec; only the name is relevant to the patch shape. -/
structure Volume where
  name : String
deriving DecidableEq, Repr

/-- The decoded Pod specification as consumed by the webhook: metadata
annotations and labels, plus containers, init containers and volumes. -/
structure Pod where
  annotations : List (String × String)
  labels : List (String × String)
  containers : List Container
  initContainers : List Container
  volumes : List Volume
deriving DecidableEq, Repr

/-- The Handler configuration, with the field names used by the test file
(handler_ent_test.go): allow/deny namespace sets, namespacing switches,
mirroring switches and the cross-namespace ACL policy name (empty string
means ACLs are disabled). Sets are modelled as lists of patterns. -/
structure Handler where
  AllowK8sNamespacesSet : List String
  DenyK8sNamespacesSet : List String
  EnableNamespaces : Bool
  ConsulDestinationNamespace : String
  EnableK8SNSMirroring : Bool
  K8SNSMirroringPrefix : String
  CrossNamespaceACLPolicy : String
deriving DecidableEq, Repr

/-- Modelled from the spec: the injected-status annotation key, a
domain-qualified key marking a Pod as already injected (the value is the key
the real webhook uses; any domain-qualified key containing a slash plays the
same role in the claims). -/
def annotationStatus : String := "consul.hashicorp.com/connect-inject-status"

/-- Modelled from the spec: the destination-namespace annotation key recording
the resolved registry namespace on the injected Pod; domain-qualified, so it
contains a slash which must be escaped in JSON-pointer paths. -/
def annotationConsulDestinationNamespace : String :=
  "consul.hashicorp.com/consul-destination-namespace"

/-- Escape one character per the JSON-Pointer rules of RFC 6901:
a tilde becomes "~0", a slash becomes "~1", any other character is kept. -/
def escapeChar (c : Char) : String :=
  if c = '~' then "~0" else if c = '/' then "~1" else String.singleton c

/-- Modelled from the spec: escapeJSONPointer applies the JSON-Pointer
escaping to every character of the key before it is concatenated into a
patch path. -/
def escapeJSONPointer (s : String) : String :=
  String.join (s.data.map escapeChar)

/-- Modelled from the spec: the shared volume(s) injected for proxy
bootstrap data. -/
def injectedVolumes : List Volume :=
  [⟨"consul-connect-inject-data"⟩]

/-- Modelled from the spec: the init container(s) that prepare mesh
configuration. -/
def injectedInitContainers : List Container :=
  [⟨"consul-connect-inject-init"⟩]

/-- Modelled from the spec: the containers appended to the Pod — the sidecar
proxy and the lifecycle helper container, each emitted as its own add
operation at the array-append path (the test expects two such operations). -/
def injectedContainers : List Container :=
  [⟨"consul-connect-envoy-sidecar"⟩, ⟨"consul-connect-lifecycle-sidecar"⟩]

/-- One JSON-Patch operation record, as in the jsonpatch library used by the
test: an operation kind, a JSON-pointer path, and a value (serialized). -/
structure JsonPatchOperation where
  Operation : String
  Path : String
  Value : String
deriving DecidableEq, Repr

/-- The path of the status-annotation operation: the annotations prefix
concatenated with the escaped status key. -/
def statusPath : String :=
  "/metadata/annotations/" ++ escapeJSONPointer annotationStatus

/-- The path of the destination-namespace-annotation operation: the
annotations prefix concatenated with the escaped destination-namespace key. -/
def destNsPath : String :=
  "/metadata/annotations/" ++ escapeJSONPointer annotationConsulDestinationNamespace

/-- Modelled from the spec: PatchBuilder.Build. Produces, in the fixed order,
only the operations whose preconditions hold: (1) create the annotations map
if the Pod has none; (2) append the shared volumes (a whole-array add when the
Pod has no volumes, an array-append add per volume otherwise); (3) likewise
for the init containers; (4) one array-append add per injected container;
(5) the scalar status annotation; (6) create the labels map if the Pod has
none; (7) the scalar destination-namespace annotation, only when namespacing
is enabled. -/
def Build (pod : Pod) (h : Handler) (destinationNamespace : String) :
    List JsonPatchOperation :=
  (if pod.annotations.isEmpty then
    [⟨"add", "/metadata/annotations", "\x7b\x7d"⟩] else []) ++
  (if pod.volumes.isEmpty then
    [⟨"add", "/spec/volumes", String.intercalate "," (injectedVolumes.map (·.name))⟩]
   else injectedVolumes.map fun v => ⟨"add", "/spec/volumes/-", v.name⟩) ++
  (if pod.initContainers.isEmpty then
    [⟨"add", "/spec/initContainers",
      String.intercalate "," (injectedInitContainers.map (·.name))⟩]
   else injectedInitContainers.map fun c => ⟨"add", "/spec/initContainers/-", c.name⟩) ++
  (injectedContainers.map fun c => ⟨"add", "/spec/containers/-", c.name⟩) ++
  [⟨"add", statusPath, "injected"⟩] ++
  (if pod.labels.isEmpty then [⟨"add", "/metadata/labels", "\x7b\x7d"⟩] else []) ++
  (if h.EnableNamespaces then [⟨"add", destNsPath, destinationNamespace⟩] else [])

/-- Serialize one patch operation as a JSON record; purely a function of the
operation's fields. -/
def renderOp (op : JsonPatchOperation) : String :=
  "\x7b\"op\":\"" ++ op.Operation ++ "\",\"path\":\"" ++ op.Path ++
    "\",\"value\":\"" ++ op.Value ++ "\"\x7d"

/-- Serialize a whole patch document as a JSON array of operation records. -/
def renderPatch (ops : List JsonPatchOperation) : String :=
  "[" ++ String.intercalate "," (ops.map renderOp) ++ "]"

/-- A reference to an ACL policy attached to a registry namespace, as in the
registry client's ACLLink. -/
structure ACLLink where
  Name : String
deriving DecidableEq, Repr

/-- The ACL configuration of a registry namespace: its policy-defaults list. -/
structure NamespaceACLConfig where
  PolicyDefaults : List ACLLink
deriving DecidableEq, Repr

/-- A namespace entity of the external service registry: name, description,
metadata map, and attached ACL configuration. -/
structure RegistryNamespace where
  Name : String
  Description : String
  Meta : List (String × String)
  ACLs : NamespaceACLConfig
deriving DecidableEq, Repr

/-- The registry's namespace set, keyed by name. -/
abbrev Registry := List RegistryNamespace

/-- One call issued to the external registry: a read-by-name, a create, or an
update (overwrite) of a namespace. -/
inductive RegistryOp where
  | read (name : String)
  | create (name : String)
  | update (name : String)
deriving DecidableEq, Repr

/-- The outcome of a create call against the registry: success, a conflict
(the namespace already exists, e.g. a concurrent caller won the race), or a
transport-level/permission failure. -/
inductive CreateResult where
  | ok
  | conflict
  | transportError
deriving DecidableEq, Repr

/-- A hard registry error surfaced to the Handler. -/
inductive RegError where
  | unavailable
deriving DecidableEq, Repr

/-- The result of a reconciliation call: the trace of registry calls issued,
the registry state afterwards, and either a hard error or the created flag. -/
structure EnsureResult where
  ops : List RegistryOp
  registry : Registry
  result : Except RegError Bool
deriving Repr

/-- Modelled from the spec: the namespace entity created for a missing
non-default namespace — fixed description, the external-source metadata key,
and exactly one ACL policy-default naming the cross-namespace policy when
that policy is configured (none when it is empty). -/
def newNamespace (name : String) (h : Handler) : RegistryNamespace :=
  { Name := name
    Description := "Auto-generated by consul-k8s"
    Meta := [("external-source", "kubernetes")]
    ACLs := ⟨if h.CrossNamespaceACLPolicy = "" then [] else [⟨h.CrossNamespaceACLPolicy⟩]⟩ }

/-- Modelled from the spec: checkAndCreateNamespace (EnsureExists), the
reconciler called from Handler.Mutate. For "default" it only verifies
readability and never creates or overwrites; for any other name it reads, and
if the namespace is absent issues a create whose outcome is the given
CreateResult: success inserts the new namespace, a conflict is treated as
success, and a transport failure is a hard error. -/
def checkAndCreateNamespace (reg : Registry) (name : String) (h : Handler)
    (outcome : CreateResult) : EnsureResult :=
  if name = "default" then
    ⟨[RegistryOp.read name], reg, Except.ok false⟩
  else if reg.any (fun n => n.Name = name) then
    ⟨[RegistryOp.read name], reg, Except.ok false⟩
  else
    match outcome with
    | CreateResult.ok =>
        ⟨[RegistryOp.read name, RegistryOp.create name],
          reg ++ [newNamespace name h], Except.ok true⟩
    | CreateResult.conflict =>
        ⟨[RegistryOp.read name, RegistryOp.create name], reg, Except.ok false⟩
    | CreateResult.transportError =>
        ⟨[RegistryOp.read name, RegistryOp.create name], reg,
          Except.error RegError.unavailable⟩

/-- Modelled from the spec: pattern-set membership — the literal pattern "*"
matches every namespace, otherwise membership is literal. -/
def matchesSet (s : List String) (ns : String) : Bool :=
  s.contains "*" || s.contains ns

/-- Modelled from the spec: the NamespaceFilter — deny takes precedence over
allow; otherwise in scope iff the allow set matches. -/
def InScope (sourceNamespace : String) (allow deny : List String) : Bool :=
  if matchesSet deny sourceNamespace then false
  else matchesSet allow sourceNamespace

/-- Modelled from the spec: the NamespaceResolver — consulNamespace. With
namespacing off, the empty sentinel; with mirroring off, the fixed
destination namespace verbatim; otherwise the mirroring prefix concatenated
with the source namespace. -/
def consulNamespace (h : Handler) (sourceNamespace : String) : String :=
  if !h.EnableNamespaces then ""
  else if !h.EnableK8SNSMirroring then h.ConsulDestinationNamespace
  else h.K8SNSMirroringPrefix ++ sourceNamespace

/-- An admission request: the source namespace and the decoded Pod. -/
structure AdmissionRequest where
  Namespace : String
  pod : Pod
deriving DecidableEq, Repr

/-- An admission response: allowed or rejected, with an optional patch. -/
structure AdmissionResponse where
  Allowed : Bool
  Patch : List JsonPatchOperation
deriving DecidableEq, Repr

/-- The trace, registry state and response produced by one Mutate call. -/
structure MutateResult where
  ops : List RegistryOp
  registry : Registry
  response : AdmissionResponse
deriving Repr

/-- Whether the Pod already carries the injected-status annotation. -/
def alreadyInjected (pod : Pod) : Bool :=
  pod.annotations.any (fun kv => kv.1 = annotationStatus)

/-- Modelled from the spec: Handler.Mutate orchestration — an already-marked
Pod is allowed with no patch; an out-of-scope source namespace is allowed
with no patch; with namespacing enabled the destination namespace is resolved
and reconciled, a reconciler error rejecting the request; otherwise the patch
is built and the request allowed with it. -/
def Mutate (h : Handler) (reg : Registry) (req : AdmissionRequest)
    (outcome : CreateResult) : MutateResult :=
  if alreadyInjected req.pod then
    ⟨[], reg, ⟨true, []⟩⟩
  else if !(InScope req.Namespace h.AllowK8sNamespacesSet h.DenyK8sNamespacesSet) then
    ⟨[], reg, ⟨true, []⟩⟩
  else if h.EnableNamespaces then
    let ns := consulNamespace h req.Namespace
    let r := checkAndCreateNamespace reg ns h outcome
    match r.result with
    | Except.error _ => ⟨r.ops, r.registry, ⟨false, []⟩⟩
    | Except.ok _ => ⟨r.ops, r.registry, ⟨true, Build req.pod h ns⟩⟩
  else
    ⟨[], reg, ⟨true, Build req.pod h (consulNamespace h req.Namespace)⟩⟩

/-- The sequence of JSON-pointer paths of a built patch document, in emission
order. -/
def buildPaths (pod : Pod) (h : Handler) (ns : String) : List String :=
  (Build pod h ns).map (fun op => op.Path)

/-- The fixed master order of patch-operation paths: annotations map, volumes
(whole-array or append form), init containers (either form), the two container
appends, the status annotation, the labels map, and last the
destination-namespace annotation. Every built patch's path sequence is a
sublist of this list. -/
def fixedOrderPaths : List String :=
  ["/metadata/annotations",
   "/spec/volumes", "/spec/volumes/-",
   "/spec/initContainers", "/spec/initContainers/-",
   "/spec/containers/-", "/spec/containers/-",
   statusPath,
   "/metadata/labels",
   destNsPath]

/-- The basic Pod of the test file: a single application container named
"web", no annotations, labels, init containers or volumes. -/
def basicPod : Pod := ⟨[], [], [⟨"web"⟩], [], []⟩

/-- The handler of the first test case: allow-all, mirroring enabled without
prefix, destination namespace "abcd". -/
def exHandler : Handler :=
  { AllowK8sNamespacesSet := ["*"]
    DenyK8sNamespacesSet := []
    EnableNamespaces := true
    ConsulDestinationNamespace := "abcd"
    EnableK8SNSMirroring := true
    K8SNSMirroringPrefix := ""
    CrossNamespaceACLPolicy := "" }

/-- A handler with a fixed destination namespace "dest" and mirroring off. -/
def destHandler : Handler :=
  { AllowK8sNamespacesSet := ["*"]
    DenyK8sNamespacesSet := []
    EnableNamespaces := true
    ConsulDestinationNamespace := "dest"
    EnableK8SNSMirroring := false
    K8SNSMirroringPrefix := ""
    CrossNamespaceACLPolicy := "" }

/-- A handler with mirroring enabled and prefix "k8s-"; the configured fixed
destination "default" is overridden by mirroring. -/
def mirrorHandler : Handler :=
  { AllowK8sNamespacesSet := ["*"]
    DenyK8sNamespacesSet := []
    EnableNamespaces := true
    ConsulDestinationNamespace := "default"
    EnableK8SNSMirroring := true
    K8SNSMirroringPrefix := "k8s-"
    CrossNamespaceACLPolicy := "" }

/-- A handler with the cross-namespace ACL policy configured and fixed
destination "dest". -/
def aclHandler : Handler :=
  { AllowK8sNamespacesSet := ["*"]
    DenyK8sNamespacesSet := []
    EnableNamespaces := true
    ConsulDestinationNamespace := "dest"
    EnableK8SNSMirroring := false
    K8SNSMirroringPrefix := ""
    CrossNamespaceACLPolicy := "cross-namespace-policy" }

/-- A handler with fixed destination "default" and mirroring off. -/
def destDefaultHandler : Handler :=
  { AllowK8sNamespacesSet := ["*"]
    DenyK8sNamespacesSet := []
    EnableNamespaces := true
    ConsulDestinationNamespace := "default"
    EnableK8SNSMirroring := false
    K8SNSMirroringPrefix := ""
    CrossNamespaceACLPolicy := "" }

/-- The ever-present "default" registry namespace, as bootstrapped by the
registry itself (description and ACLs owned externally). -/
def defaultNamespaceEntity : RegistryNamespace :=
  ⟨"default", "Builtin Default Namespace", [], ⟨[]⟩⟩

/-- A registry holding only the "default" namespace. -/
def regDefault : Registry := [defaultNamespaceEntity]

/-- An admission request for the basic Pod arriving in source namespace
"dest". -/
def reqDest : AdmissionRequest := ⟨"dest", basicPod⟩

lemma buildPaths_eq (pod : Pod) (h : Handler) (ns : String) :
    buildPaths pod h ns =
      (if pod.annotations.isEmpty then ["/metadata/annotations"] else []) ++
      (if pod.volumes.isEmpty then ["/spec/volumes"] else ["/spec/volumes/-"]) ++
      (if pod.initContainers.isEmpty then ["/spec/initContainers"]
       else ["/spec/initContainers/-"]) ++
      ["/spec/containers/-", "/spec/containers/-"] ++
      [statusPath] ++
      (if pod.labels.isEmpty then ["/metadata/labels"] else []) ++
      (if h.EnableNamespaces then [destNsPath] else []) := by
  simp [buildPaths, Build, apply_ite (List.map (fun (op : JsonPatchOperation) => op.Path)),
    injectedVolumes, injectedInitContainers, injectedContainers]

lemma Mutate_ok_patch (h : Handler) (reg : Registry) (req : AdmissionRequest)
    (hs : alreadyInjected req.pod = false)
    (hi : InScope req.Namespace h.AllowK8sNamespacesSet h.DenyK8sNamespacesSet = true)
    (he : h.EnableNamespaces = true) :
    (Mutate h reg req CreateResult.ok).response =
      ⟨true, Build req.pod h (consulNamespace h req.Namespace)⟩ := by
  by_cases hd : consulNamespace h req.Namespace = "default"
  · simp [Mutate, hs, hi, he, checkAndCreateNamespace, hd]
  · by_cases hex : reg.any (fun n => n.Name = consulNamespace h req.Namespace) = true
    · simp [Mutate, hs, hi, he, checkAndCreateNamespace, hd, hex]
    · simp [Mutate, hs, hi, he, checkAndCreateNamespace, hd, hex]

lemma statusPath_mem_buildPaths (pod : Pod) (h : Handler) (ns : String) :
    statusPath ∈ buildPaths pod h ns := by
  rw [buildPaths_eq]
  cases hA : pod.annotations.isEmpty <;> cases hV : pod.volumes.isEmpty <;>
    cases hI : pod.initContainers.isEmpty <;> cases hL : pod.labels.isEmpty <;>
    cases hE : h.EnableNamespaces <;> decide

lemma buildPaths_count (pod : Pod) (h : Handler) (ns : String) :
    (buildPaths pod h ns).count "/spec/containers/-" = 2
    ∧ ∀ p ∈ buildPaths pod h ns, p ≠ "/spec/containers/-" →
        (buildPaths pod h ns).count p = 1 := by
  rw [buildPaths_eq]
  cases hA : pod.annotations.isEmpty <;> cases hV : pod.volumes.isEmpty <;>
    cases hI : pod.initContainers.isEmpty <;> cases hL : pod.labels.isEmpty <;>
    cases hE : h.EnableNamespaces <;> decide

/-- C1: for every Pod that the webhook injects, the built patch document
contains its operations in the fixed order given by fixedOrderPaths — the
sequence of emitted paths is a sublist of that master order; the
destination-namespace annotation is emitted iff namespacing is enabled and,
when emitted, is the last operation; the annotations map, volumes whole-array,
init-containers whole-array and labels map operations are each emitted exactly
when their precondition (the corresponding Pod field being empty) holds; the
status annotation is always emitted. -/
theorem build_patch_fixed_order (pod : Pod) (h : Handler) (ns : String) :
    List.Sublist (buildPaths pod h ns) fixedOrderPaths
    ∧ (destNsPath ∈ buildPaths pod h ns ↔ h.EnableNamespaces = true)
    ∧ ("/metadata/annotations" ∈ buildPaths pod h ns ↔ pod.annotations.isEmpty = true)
    ∧ ("/spec/volumes" ∈ buildPaths pod h ns ↔ pod.volumes.isEmpty = true)
    ∧ ("/spec/initContainers" ∈ buildPaths pod h ns ↔ pod.initContainers.isEmpty = true)
    ∧ ("/metadata/labels" ∈ buildPaths pod h ns ↔ pod.labels.isEmpty = true)
    ∧ statusPath ∈ buildPaths pod h ns
    ∧ (h.EnableNamespaces = true → (buildPaths pod h ns).getLast? = some destNsPath) := by
  rw [buildPaths_eq]
  cases hA : pod.annotations.isEmpty <;> cases hV : pod.volumes.isEmpty <;>
    cases hI : pod.initContainers.isEmpty <;> cases hL : pod.labels.isEmpty <;>
    cases hE : h.EnableNamespaces <;> decide

/-- Witness for C1 at the first test case's input: the basic Pod under the
mirroring handler with destination "abcd". -/
theorem build_patch_fixed_order_witness :
    List.Sublist (buildPaths basicPod exHandler "abcd") fixedOrderPaths
    ∧ (buildPaths basicPod exHandler "abcd").getLast? = some destNsPath :=
  ⟨(build_patch_fixed_order basicPod exHandler "abcd").1,
   (build_patch_fixed_order basicPod exHandler "abcd").2.2.2.2.2.2.2 rfl⟩

/-- C2: with namespacing and mirroring enabled, the resolver returns the
mirroring prefix concatenated with the source namespace, for every handler
configuration (in particular regardless of ConsulDestinationNamespace) and
every source namespace. -/
theorem consulNamespace_mirroring (h : Handler) (sourceNamespace : String)
    (he : h.EnableNamespaces = true) (hm : h.EnableK8SNSMirroring = true) :
    consulNamespace h sourceNamespace = h.K8SNSMirroringPrefix ++ sourceNamespace := by
  simp [consulNamespace, he, hm]

/-- Witness for C2: prefix "k8s-" and source namespace "dest" resolve to
"k8s-dest" even though the configured fixed destination is "default". -/
theorem consulNamespace_mirroring_witness :
    consulNamespace mirrorHandler "dest" = "k8s-dest" :=
  (consulNamespace_mirroring mirrorHandler "dest" rfl rfl).trans (by decide)

/-- C3: with namespacing enabled and mirroring disabled, the resolver returns
the configured fixed destination namespace verbatim, independent of the
source namespace. -/
theorem consulNamespace_fixed_destination (h : Handler) (sourceNamespace : String)
    (he : h.EnableNamespaces = true) (hm : h.EnableK8SNSMirroring = false) :
    consulNamespace h sourceNamespace = h.ConsulDestinationNamespace := by
  simp [consulNamespace, he, hm]

/-- Witness for C3: fixed destination "dest" from source namespace
"non-default". -/
theorem consulNamespace_fixed_destination_witness :
    consulNamespace destHandler "non-default" = "dest" :=
  (consulNamespace_fixed_destination destHandler "non-default" rfl rfl).trans (by decide)

/-- C4: reconciling the "default" namespace never issues a create or update
call — it performs exactly one read and leaves the registry (hence the
"default" namespace's description and metadata) unchanged, for every registry
state, handler configuration and create outcome; consequently, whenever the
resolved destination namespace is "default", Mutate leaves the registry
unchanged and its registry-call trace contains no create or update call. -/
theorem ensureExists_default_no_create (reg : Registry) (h : Handler)
    (outcome : CreateResult) (req : AdmissionRequest) :
    checkAndCreateNamespace reg "default" h outcome =
      ⟨[RegistryOp.read "default"], reg, Except.ok false⟩
    ∧ (h.EnableNamespaces = true → consulNamespace h req.Namespace = "default" →
        (Mutate h reg req outcome).registry = reg
        ∧ ∀ op ∈ (Mutate h reg req outcome).ops, ∀ n,
            op ≠ RegistryOp.create n ∧ op ≠ RegistryOp.update n) := by
  constructor
  · simp [checkAndCreateNamespace]
  · intro he hd
    by_cases hs : alreadyInjected req.pod
    · simp [Mutate, hs]
    · by_cases hi : InScope req.Namespace h.AllowK8sNamespacesSet h.DenyK8sNamespacesSet
      · simp [Mutate, hs, hi, he, hd, checkAndCreateNamespace]
      · simp [Mutate, hs, hi]

/-- Witness for C4: the handler with fixed destination "default" serving
the basic Pod from source namespace "dest" leaves the registry unchanged. -/
theorem ensureExists_default_no_create_witness :
    checkAndCreateNamespace regDefault "default" destDefaultHandler CreateResult.ok =
      ⟨[RegistryOp.read "default"], regDefault, Except.ok false⟩
    ∧ (Mutate destDefaultHandler regDefault reqDest CreateResult.ok).registry = regDefault :=
  ⟨(ensureExists_default_no_create regDefault destDefaultHandler CreateResult.ok reqDest).1,
   ((ensureExists_default_no_create regDefault destDefaultHandler CreateResult.ok reqDest).2
      rfl (by decide)).1⟩

/-- C5: every namespace other than "default" that the reconciler creates
(because it was absent from the registry) is created with description exactly
"Auto-generated by consul-k8s" and with metadata containing the key
"external-source" mapped to "kubernetes": the reconciler reads, creates, and
appends exactly the template namespace to the registry. -/
theorem ensureExists_creates_with_template (reg : Registry) (name : String) (h : Handler)
    (hne : name ≠ "default")
    (habs : reg.any (fun n => n.Name = name) = false) :
    checkAndCreateNamespace reg name h CreateResult.ok =
      ⟨[RegistryOp.read name, RegistryOp.create name],
        reg ++ [newNamespace name h], Except.ok true⟩
    ∧ (newNamespace name h).Description = "Auto-generated by consul-k8s"
    ∧ ("external-source", "kubernetes") ∈ (newNamespace name h).Meta := by
  refine ⟨?_, rfl, ?_⟩
  · simp [checkAndCreateNamespace, hne, habs]
  · simp [newNamespace]

/-- Witness for C5: creating "k8s-dest" (mirroring with prefix "k8s-" from
source "dest") in a registry holding only "default" appends the template
namespace carrying the external-source metadata. -/
theorem ensureExists_creates_with_template_witness :
    checkAndCreateNamespace regDefault "k8s-dest" mirrorHandler CreateResult.ok =
      ⟨[RegistryOp.read "k8s-dest", RegistryOp.create "k8s-dest"],
        regDefault ++ [newNamespace "k8s-dest" mirrorHandler], Except.ok true⟩
    ∧ ("external-source", "kubernetes") ∈ (newNamespace "k8s-dest" mirrorHandler).Meta :=
  ⟨(ensureExists_creates_with_template regDefault "k8s-dest" mirrorHandler
      (by decide) (by decide)).1,
   (ensureExists_creates_with_template regDefault "k8s-dest" mirrorHandler
      (by decide) (by decide)).2.2⟩

/-- C6: when the cross-namespace ACL policy is configured (non-empty), a
newly created non-default namespace carries exactly one ACL policy-default
entry, named exactly that policy, and the "default" namespace's registry
entry (hence its ACL list) is not modified by the reconciliation. -/
theorem ensureExists_attaches_cross_namespace_policy (reg : Registry) (name : String)
    (h : Handler) (hne : name ≠ "default")
    (habs : reg.any (fun n => n.Name = name) = false)
    (hp : h.CrossNamespaceACLPolicy ≠ "") :
    (checkAndCreateNamespace reg name h CreateResult.ok).registry =
      reg ++ [newNamespace name h]
    ∧ (newNamespace name h).ACLs.PolicyDefaults = [⟨h.CrossNamespaceACLPolicy⟩]
    ∧ (checkAndCreateNamespace reg name h CreateResult.ok).registry.filter
        (fun n => n.Name = "default") = reg.filter (fun n => n.Name = "default") := by
  have hreg : (checkAndCreateNamespace reg name h CreateResult.ok).registry =
      reg ++ [newNamespace name h] := by
    simp [checkAndCreateNamespace, hne, habs]
  refine ⟨hreg, ?_, ?_⟩
  · simp [newNamespace, hp]
  · rw [hreg, List.filter_append]
    simp [newNamespace, hne]

/-- Witness for C6: creating "dest" with policy "cross-namespace-policy"
attaches exactly that one policy default and leaves the "default" entry of
the registry untouched. -/
theorem ensureExists_attaches_cross_namespace_policy_witness :
    (newNamespace "dest" aclHandler).ACLs.PolicyDefaults = [⟨"cross-namespace-policy"⟩]
    ∧ (checkAndCreateNamespace regDefault "dest" aclHandler CreateResult.ok).registry.filter
        (fun n => n.Name = "default") = regDefault.filter (fun n => n.Name = "default") :=
  ⟨(ensureExists_attaches_cross_namespace_policy regDefault "dest" aclHandler
      (by decide) (by decide) (by decide)).2.1,
   (ensureExists_attaches_cross_namespace_policy regDefault "dest" aclHandler
      (by decide) (by decide) (by decide)).2.2⟩

/-- C7: for a non-default absent namespace, a create call that fails with a
conflict (the namespace now already exists) is treated as success by the
reconciler, while a transport or permission failure is a hard error; at the
Handler level, the hard error rejects the enclosing admission request while
the conflict still allows it. -/
theorem ensureExists_conflict_is_success (reg : Registry) (name : String) (h : Handler)
    (req : AdmissionRequest) (hne : name ≠ "default")
    (habs : reg.any (fun n => n.Name = name) = false) :
    (checkAndCreateNamespace reg name h CreateResult.conflict).result = Except.ok false
    ∧ (checkAndCreateNamespace reg name h CreateResult.transportError).result =
        Except.error RegError.unavailable
    ∧ (alreadyInjected req.pod = false →
        InScope req.Namespace h.AllowK8sNamespacesSet h.DenyK8sNamespacesSet = true →
        h.EnableNamespaces = true →
        consulNamespace h req.Namespace = name →
        (Mutate h reg req CreateResult.transportError).response.Allowed = false
        ∧ (Mutate h reg req CreateResult.conflict).response.Allowed = true) := by
  refine ⟨?_, ?_, ?_⟩
  · simp [checkAndCreateNamespace, hne, habs]
  · simp [checkAndCreateNamespace, hne, habs]
  · intro hs hi he hd
    constructor
    · simp [Mutate, hs, hi, he, hd, checkAndCreateNamespace, hne, habs]
    · simp [Mutate, hs, hi, he, hd, checkAndCreateNamespace, hne, habs]

/-- Witness for C7: creating "dest" in a registry holding only "default" —
a conflicting create is reported as success, and a transport failure makes
Mutate reject the admission request. -/
theorem ensureExists_conflict_is_success_witness :
    (checkAndCreateNamespace regDefault "dest" destHandler CreateResult.conflict).result =
      Except.ok false
    ∧ (Mutate destHandler regDefault reqDest CreateResult.transportError).response.Allowed =
        false :=
  ⟨(ensureExists_conflict_is_success regDefault "dest" destHandler reqDest
      (by decide) (by decide)).1,
   ((ensureExists_conflict_is_success regDefault "dest" destHandler reqDest
      (by decide) (by decide)).2.2 (by decide) (by decide) rfl (by decide)).1⟩

/-- C8: Build is deterministic — two calls with identical inputs (same Pod,
same handler configuration, same destination namespace) produce equal patch
documents, and their serializations are byte-identical. -/
theorem build_deterministic (pod1 pod2 : Pod) (h1 h2 : Handler) (n1 n2 : String)
    (hp : pod1 = pod2) (hh : h1 = h2) (hn : n1 = n2) :
    Build pod1 h1 n1 = Build pod2 h2 n2
    ∧ renderPatch (Build pod1 h1 n1) = renderPatch (Build pod2 h2 n2) := by
  subst hp
  subst hh
  subst hn
  exact ⟨rfl, rfl⟩

/-- Witness for C8: two calls on the basic Pod with the first test case's
handler and destination "abcd" agree, byte for byte. -/
theorem build_deterministic_witness :
    Build basicPod exHandler "abcd" = Build basicPod exHandler "abcd"
    ∧ renderPatch (Build basicPod exHandler "abcd") =
        renderPatch (Build basicPod exHandler "abcd") :=
  build_deterministic basicPod basicPod exHandler exHandler "abcd" "abcd" rfl rfl rfl

/-- C9: every annotation key used as a JSON-pointer path segment is escaped
before concatenation into the path — escapeJSONPointer maps each character,
sending a tilde to "~0", a slash to "~1" and leaving every other character
unchanged; the status and destination-namespace operation paths are exactly
the annotations prefix concatenated with the escaped key, the status path is
always emitted, and on the two domain-qualified keys the slash indeed becomes
"~1". -/
theorem patch_paths_escaped (s : String) (c : Char) (pod : Pod) (h : Handler) (ns : String) :
    escapeJSONPointer s = String.join (s.data.map escapeChar)
    ∧ escapeChar '~' = "~0"
    ∧ escapeChar '/' = "~1"
    ∧ (c ≠ '~' → c ≠ '/' → escapeChar c = String.singleton c)
    ∧ statusPath = "/metadata/annotations/" ++ escapeJSONPointer annotationStatus
    ∧ destNsPath = "/metadata/annotations/" ++
        escapeJSONPointer annotationConsulDestinationNamespace
    ∧ statusPath ∈ buildPaths pod h ns
    ∧ escapeJSONPointer annotationStatus = "consul.hashicorp.com~1connect-inject-status"
    ∧ escapeJSONPointer annotationConsulDestinationNamespace =
        "consul.hashicorp.com~1consul-destination-namespace" := by
  refine ⟨rfl, rfl, rfl, ?_, rfl, rfl, statusPath_mem_buildPaths pod h ns,
    by decide, by decide⟩
  intro h1 h2
  simp [escapeChar, h1, h2]

/-- Witness for C9: an ordinary character is kept unescaped, and the escaped
status key carries "~1" where its slash was. -/
theorem patch_paths_escaped_witness :
    escapeChar 'a' = String.singleton 'a'
    ∧ escapeJSONPointer annotationStatus = "consul.hashicorp.com~1connect-inject-status" :=
  ⟨(patch_paths_escaped "x" 'a' basicPod exHandler "ns").2.2.2.1 (by decide) (by decide),
   (patch_paths_escaped "x" 'a' basicPod exHandler "ns").2.2.2.2.2.2.2.1⟩

/-- C10: when Mutate injects a Pod holding a single application container
(in scope, not yet injected, namespacing enabled, reconciliation succeeding),
the returned patch document contains exactly two add operations at the
array-append path of the containers list — the sidecar proxy and the
lifecycle helper — and exactly one occurrence of every other emitted
operation path. -/
theorem mutate_appends_two_containers (h : Handler) (reg : Registry)
    (req : AdmissionRequest)
    (hs : alreadyInjected req.pod = false)
    (hi : InScope req.Namespace h.AllowK8sNamespacesSet h.DenyK8sNamespacesSet = true)
    (he : h.EnableNamespaces = true)
    (hc : req.pod.containers.length = 1) :
    ((Mutate h reg req CreateResult.ok).response.Patch.map (fun op => op.Path)).count
        "/spec/containers/-" = 2
    ∧ ∀ p ∈ (Mutate h reg req CreateResult.ok).response.Patch.map (fun op => op.Path),
        p ≠ "/spec/containers/-" →
        ((Mutate h reg req CreateResult.ok).response.Patch.map (fun op => op.Path)).count
          p = 1 := by
  have hresp := Mutate_ok_patch h reg req hs hi he
  simp only [hresp]
  exact buildPaths_count req.pod h (consulNamespace h req.Namespace)

/-- Witness for C10: the basic single-container Pod from source "dest" under
the prefix-mirroring handler gets exactly two container-append operations. -/
theorem mutate_appends_two_containers_witness :
    ((Mutate mirrorHandler regDefault reqDest CreateResult.ok).response.Patch.map
        (fun op => op.Path)).count "/spec/containers/-" = 2 :=
  (mutate_appends_two_containers mirrorHandler regDefault reqDest
    (by decide) (by decide) rfl rfl).1
